import Mathlib

/-!
Shallow embedding of the glyph-engine core (token model, transition policy,
validator engine, audit log, store and orchestrator) together with proofs
about its specification.

Modelling conventions:
* Python `datetime` values are modelled as integer timestamps (seconds);
  `datetime.utcnow()` becomes an explicit `now : Int` argument threaded to
  every operation that reads the clock.
* Python `float` fields are modelled as rationals `ℚ`; every comparison and
  arithmetic operation appearing in the source is exact at the concrete
  values used below.
* Python dictionaries keyed by strings become association lists with
  first-match lookup and in-place update, mirroring dict assignment.
* SHA-256 digests (`hashlib.sha256(data).hexdigest()[:16]`) are modelled as
  an injective encoding: the model keeps the preimage `data` string itself.
  Equality/inequality of digests is thereby equality/inequality of the
  exact strings the source feeds to the hash.
* Fields that are never read by any modelled operation or claim
  (`ValidatorResult.timestamp`, `EngineResponse.timestamp`) are omitted.
-/

namespace GlyphEngine

/-- First-match lookup in an association list, mirroring `dict.get`. -/
def lookupKey {α : Type} : List (String × α) → String → Option α
  | [], _ => none
  | (k, v) :: rest, key => if k = key then some v else lookupKey rest key

/-- Update-or-append for an association list, mirroring `d[k] = v`. -/
def insertAssoc {α : Type} : List (String × α) → String → α → List (String × α)
  | [], k, v => [(k, v)]
  | (k1, v1) :: rest, k, v =>
      if k1 = k then (k, v) :: rest else (k1, v1) :: insertAssoc rest k v

/-- Removal from an association list, mirroring `del d[k]` / file unlink. -/
def removeAssoc {α : Type} : List (String × α) → String → List (String × α)
  | [], _ => []
  | (k1, v1) :: rest, k =>
      if k1 = k then rest else (k1, v1) :: removeAssoc rest k

/-- Substring test on character lists (model of Python `needle in hay`). -/
def charsContains (needle : List Char) : List Char → Bool
  | [] => needle.isEmpty
  | c :: rest => List.isPrefixOf needle (c :: rest) || charsContains needle rest

/-- Python's `needle in hay` membership test on strings. -/
def pyIn (needle hay : String) : Bool :=
  charsContains needle.data hay.data

/-- Python's `str.lower()`: per-character lowercasing. -/
def strToLower (s : String) : String :=
  String.mk (s.data.map Char.toLower)

/-! ## Token model (`glyph_engine/token.py`) -/

/-- `GlyphClass` enumeration from `token.py`. -/
inductive GlyphClass
  | anchor
  | mutation
  | warning
  | auditClass
  | consent
deriving DecidableEq

/-- `GlyphVector` — mechanistic 3D vector, each axis bounded in the source
by pydantic field constraints (not re-enforced structurally here). -/
structure GlyphVector where
  x : ℚ
  y : ℚ
  z : ℚ
deriving DecidableEq

/-- `GlyphToken` record. `expires_at : Optional[datetime]` is resolved by
`model_post_init`; the constructed record always carries the resolved
value (see `mkGlyphToken`). -/
structure GlyphToken where
  glyph_id : String
  glyph_class : GlyphClass
  vector : GlyphVector
  intensity : ℚ
  source : String
  owner : String
  ttl_seconds : Int
  created_at : Int
  expires_at : Int
  explanation : String
  parent_id : Option String
deriving DecidableEq

/-- Construction of a `GlyphToken` followed by `model_post_init`: when no
explicit expiry is supplied, `expires_at := created_at + ttl_seconds`. -/
def mkGlyphToken (gid : String) (cls : GlyphClass) (vec : GlyphVector)
    (intensity : ℚ) (source owner : String) (ttl : Int) (created : Int)
    (expires : Option Int) (explanation : String) (parent : Option String) :
    GlyphToken :=
  { glyph_id := gid
    glyph_class := cls
    vector := vec
    intensity := intensity
    source := source
    owner := owner
    ttl_seconds := ttl
    created_at := created
    expires_at := match expires with
      | some e => e
      | none => created + ttl
    explanation := explanation
    parent_id := parent }

/-- `GlyphToken.is_expired`: `datetime.utcnow() > self.expires_at`. -/
def GlyphToken.is_expired (g : GlyphToken) (now : Int) : Bool :=
  now > g.expires_at

/-- `GlyphToken.refresh`: adds to `ttl_seconds` and recomputes
`expires_at := utcnow() + ttl_seconds` (from the current clock, not from
`created_at`). -/
def GlyphToken.refresh (g : GlyphToken) (now : Int) (additional_seconds : Int) :
    GlyphToken :=
  { g with
    ttl_seconds := g.ttl_seconds + additional_seconds
    expires_at := now + (g.ttl_seconds + additional_seconds) }

/-- `GlyphToken.attenuate`: `intensity := max(0.0, intensity * factor)`. -/
def GlyphToken.attenuate (g : GlyphToken) (factor : ℚ) : GlyphToken :=
  { g with intensity := max 0 (g.intensity * factor) }

/-- `GlyphToken.checksum` preimage string (sha-256 truncation modelled as an
injective encoding, see module docstring). -/
def GlyphClass.value : GlyphClass → String
  | .anchor => "anchor"
  | .mutation => "mutation"
  | .warning => "warning"
  | .auditClass => "audit"
  | .consent => "consent"

/-- `GlyphToken.to_text` — plain-text rendering (numeric formatting
approximated by `toString`; no claim inspects this string). -/
def GlyphToken.to_text (g : GlyphToken) : String :=
  "[" ++ g.glyph_class.value ++ "] " ++ g.explanation ++
    " (intensity: " ++ toString g.intensity ++ ", expires: " ++
    toString g.expires_at ++ ")"

/-! ## Transition policy (`glyph_engine/scroll.py`) -/

/-- `MutationType` enumeration from `scroll.py`. -/
inductive MutationType
  | rotate
  | attenuate
  | amplify
  | transform
  | refresh
  | decay
deriving DecidableEq

/-- `ScrollTransition` — one allowed transition. -/
structure ScrollTransition where
  from_glyph_id : String
  to_glyph_id : String
  mutation_type : MutationType
  requires_consent : Bool
  max_intensity_delta : ℚ
deriving DecidableEq

/-- `Scroll` — declarative legality envelope. Python `Set[MutationType]`
fields are modelled as lists queried only through membership. -/
structure Scroll where
  scroll_id : String
  name : String
  sequence : List String
  allowed_mutations : List MutationType
  forbidden_mutations : List MutationType
  transitions : List ScrollTransition
  validator_id : String
  max_active_glyphs : Int
deriving DecidableEq

/-- `Scroll.is_mutation_allowed`: forbidden wins, else membership in
allowed. -/
def Scroll.is_mutation_allowed (s : Scroll) (m : MutationType) : Bool :=
  if m ∈ s.forbidden_mutations then false
  else if m ∈ s.allowed_mutations then true else false

/-- `Scroll.can_transition`: disallowed mutation kinds are rejected; an
exact (from, to, kind) match in the transition list accepts; otherwise the
call accepts exactly when the transition list is empty. -/
def Scroll.can_transition (s : Scroll) (from_id to_id : String)
    (m : MutationType) : Bool :=
  if s.is_mutation_allowed m = false then false
  else if (∃ t ∈ s.transitions, t.from_glyph_id = from_id ∧
      t.to_glyph_id = to_id ∧ t.mutation_type = m) then true
  else if s.transitions = [] then true else false

/-- `GENESIS_SCROLL` constant from `scroll.py`. -/
def GENESIS_SCROLL : Scroll :=
  { scroll_id := "S-000"
    name := "Genesis Scroll"
    sequence := ["G-000", "G-001"]
    allowed_mutations := [.rotate, .attenuate, .refresh, .decay]
    forbidden_mutations := [.amplify, .transform]
    transitions := []
    validator_id := "V-00"
    max_active_glyphs := 50 }

/-- `STANDARD_SCROLL` constant from `scroll.py`. -/
def STANDARD_SCROLL : Scroll :=
  { scroll_id := "S-001"
    name := "Standard Session Scroll"
    sequence := []
    allowed_mutations := [.rotate, .attenuate, .amplify, .refresh, .decay,
      .transform]
    forbidden_mutations := []
    transitions := []
    validator_id := "V-01"
    max_active_glyphs := 100 }

/-! ## Validator engine (`glyph_engine/validator.py`) -/

/-- `ValidationAction` enumeration. -/
inductive ValidationAction
  | allow
  | halt
  | revert
  | request_confirmation
deriving DecidableEq

/-- `ValidatorResult` (the nondeterministic `timestamp` field is omitted,
no modelled operation reads it). -/
structure ValidatorResult where
  passed : Bool
  validator_id : String
  check_name : String
  message : String
  action : ValidationAction
deriving DecidableEq

/-- `ValidationCheck`. -/
structure ValidationCheck where
  name : String
  description : String
  is_critical : Bool
deriving DecidableEq

/-- `Validator` record with its optional stored checksum. -/
structure Validator where
  validator_id : String
  name : String
  checks : List ValidationCheck
  on_fail : ValidationAction
  version : String
  checksum : Option String
deriving DecidableEq

/-- Python `str(bool)` as used in the checksum preimage f-string. -/
def pyBool (b : Bool) : String :=
  if b then "True" else "False"

/-- `Validator.compute_checksum`: the digest is modelled by its exact
preimage string `id:version:len(checks)` followed by `:name:is_critical`
per check (sha-256 truncation treated as injective). Note the preimage
omits check descriptions and the failure action. -/
def Validator.compute_checksum (v : Validator) : String :=
  v.checks.foldl
    (fun acc c => acc ++ ":" ++ c.name ++ ":" ++ pyBool c.is_critical)
    (v.validator_id ++ ":" ++ v.version ++ ":" ++ toString v.checks.length)

/-- `Validator.verify_integrity`: vacuously true with no stored checksum,
else recomputation must match. -/
def Validator.verify_integrity (v : Validator) : Bool :=
  match v.checksum with
  | none => true
  | some c => if v.compute_checksum = c then true else false

/-- Validation context dictionary: `glyph`, `mutation`, `source` (default
"unknown"), `authenticated` (default false) and `history`, where each
history entry contributes its optional `"mutation"` value. -/
structure ValidationContext where
  glyph : Option GlyphToken
  mutation : Option String
  source : String
  authenticated : Bool
  history : List (Option String)

/-- Failing result constructor used by `_run_check` (action is the
validator's `on_fail`). -/
def failResult (v : Validator) (checkName msg : String) : ValidatorResult :=
  { passed := false
    validator_id := v.validator_id
    check_name := checkName
    message := msg
    action := v.on_fail }

/-- Passing result constructor (the default branch of `_run_check`). -/
def passResult (v : Validator) (checkName : String) : ValidatorResult :=
  { passed := true
    validator_id := v.validator_id
    check_name := checkName
    message := "Check passed"
    action := ValidationAction.allow }

/-- `ValidatorEngine._run_check` — name-dispatched built-in checks; any
name or condition not matching a failing branch falls through to a
passing result. -/
def run_check (check : ValidationCheck) (ctx : ValidationContext)
    (v : Validator) : ValidatorResult :=
  if check.name = "no_identity_fixation" then
    match ctx.glyph with
    | some g =>
        if pyIn "identity" (strToLower g.explanation) then
          failResult v check.name "Glyph explanation contains identity reference"
        else passResult v check.name
    | none => passResult v check.name
  else if check.name = "ttl_required" then
    match ctx.glyph with
    | some g =>
        if g.ttl_seconds ≤ 0 then
          failResult v check.name "Glyph has no TTL"
        else passResult v check.name
    | none => passResult v check.name
  else if check.name = "no_recursive_amplification" then
    if 3 ≤ (ctx.history.filter (fun h => h = some "amplify")).length then
      failResult v check.name "Recursive amplification detected"
    else passResult v check.name
  else if check.name = "authentication_required" then
    if ctx.source = "unknown" ∨ ctx.authenticated = false then
      failResult v check.name "Unauthenticated mutation attempt"
    else passResult v check.name
  else if check.name = "max_intensity" then
    match ctx.glyph with
    | some g =>
        if g.intensity > 1 then
          failResult v check.name "Intensity exceeds maximum"
        else passResult v check.name
    | none => passResult v check.name
  else passResult v check.name

/-- The check loop of `validate_transition`: append each result in
declaration order, breaking right after a failing critical check. -/
def runChecks (v : Validator) (ctx : ValidationContext) :
    List ValidationCheck → List ValidatorResult
  | [] => []
  | c :: rest =>
      if (run_check c ctx v).passed = false ∧ c.is_critical = true then
        [run_check c ctx v]
      else run_check c ctx v :: runChecks v ctx rest

/-- The break condition of the check loop: the check's result failed and
the check is critical. -/
def critFailB (v : Validator) (ctx : ValidationContext)
    (c : ValidationCheck) : Bool :=
  !(run_check c ctx v).passed && c.is_critical

/-- The single failing result returned for an unknown validator id. -/
def validatorNotFoundResult (vid : String) : ValidatorResult :=
  { passed := false
    validator_id := vid
    check_name := "validator_exists"
    message := "Validator " ++ vid ++ " not found"
    action := ValidationAction.halt }

/-- The single failing result returned on a checksum mismatch. -/
def integrityFailureResult (vid : String) : ValidatorResult :=
  { passed := false
    validator_id := vid
    check_name := "validator_integrity"
    message := "Validator " ++ vid ++ " failed integrity check"
    action := ValidationAction.halt }

/-- `ValidatorEngine.validate_transition` over an explicit registry:
unknown id and integrity mismatch each return one failing halt result,
the integrity gate running before any content check; otherwise the
declared checks run in order. -/
def validateTransition (registry : List (String × Validator)) (vid : String)
    (ctx : ValidationContext) : List ValidatorResult :=
  match lookupKey registry vid with
  | none => [validatorNotFoundResult vid]
  | some v =>
      if v.verify_integrity = false then [integrityFailureResult vid]
      else runChecks v ctx v.checks

/-- Registration step of `_register_core_validators`: the stored checksum
is set to the recomputation over the validator's own fields. -/
def withChecksum (v : Validator) : Validator :=
  { v with checksum := some v.compute_checksum }

/-- `V-00` Genesis Validator as registered (checksum set). -/
def genesisValidator : Validator :=
  withChecksum
    { validator_id := "V-00"
      name := "Genesis Validator"
      checks :=
        [{ name := "no_identity_fixation"
           description := "Glyphs cannot represent identity"
           is_critical := true },
         { name := "ttl_required"
           description := "All glyphs must have TTL"
           is_critical := true }]
      on_fail := ValidationAction.halt
      version := "1.0.0"
      checksum := none }

/-- `V-01` Standard Session Validator as registered (checksum set). -/
def standardValidator : Validator :=
  withChecksum
    { validator_id := "V-01"
      name := "Standard Session Validator"
      checks :=
        [{ name := "no_recursive_amplification"
           description := "Cannot amplify same glyph repeatedly"
           is_critical := true },
         { name := "no_identity_fixation"
           description := "Glyphs cannot represent identity"
           is_critical := true },
         { name := "ttl_required"
           description := "All glyphs must have TTL"
           is_critical := true },
         { name := "max_intensity"
           description := "Intensity cannot exceed 1.0"
           is_critical := false },
         { name := "authentication_required"
           description := "Mutations require authenticated source"
           is_critical := true }]
      on_fail := ValidationAction.halt
      version := "1.0.0"
      checksum := none }

/-- `V-02` Multi-Agent Validator as registered (checksum set). -/
def multiAgentValidator : Validator :=
  withChecksum
    { validator_id := "V-02"
      name := "Multi-Agent Validator"
      checks :=
        [{ name := "no_ownership_conflict"
           description :=
             "Cannot mutate glyph owned by another agent without consent"
           is_critical := true },
         { name := "no_race_condition"
           description := "Check for concurrent modification attempts"
           is_critical := true }]
      on_fail := ValidationAction.request_confirmation
      version := "1.0.0"
      checksum := none }

/-- The registry built by `ValidatorEngine.__init__`. -/
def coreValidators : List (String × Validator) :=
  [("V-00", genesisValidator), ("V-01", standardValidator),
   ("V-02", multiAgentValidator)]

/-! ## Audit log (`glyph_engine/audit.py`) -/

/-- `AuditEventType` enumeration. -/
inductive AuditEventType
  | created
  | mutated
  | decayed
  | expired
  | rejected
  | refreshed
  | forgotten
  | validated
  | validation_failed
deriving DecidableEq

/-- String value of an event type (used in timeline entries). -/
def AuditEventType.value : AuditEventType → String
  | .created => "created"
  | .mutated => "mutated"
  | .decayed => "decayed"
  | .expired => "expired"
  | .rejected => "rejected"
  | .refreshed => "refreshed"
  | .forgotten => "forgotten"
  | .validated => "validated"
  | .validation_failed => "validation_failed"

/-- `AuditEvent` record. The `before_state`/`after_state` snapshots
(`model_dump()` dictionaries in the source) are modelled as token
values. -/
structure AuditEvent where
  event_id : String
  event_type : AuditEventType
  glyph_id : String
  timestamp : Int
  source : String
  session_id : Option String
  reason : String
  before_state : Option GlyphToken
  after_state : Option GlyphToken
  validator_id : Option String
  validation_results : Option (List ValidatorResult)
deriving DecidableEq

/-- Left-pad a numeral with zeros (Python `f"{n:06d}"`). -/
def padZeros (width : Nat) (n : Nat) : String :=
  let s := toString n
  String.mk (List.replicate (width - s.length) '0') ++ s

/-- In-memory state of `AuditLog`: the monotonic event counter plus the
append-only JSONL contents. -/
structure AuditLogState where
  counter : Nat
  events : List AuditEvent
deriving DecidableEq

/-- `AuditLog.create_event`: increments the counter, builds the event with
id `A-......`, appends it, returns it. -/
def createEvent (a : AuditLogState) (now : Int) (etype : AuditEventType)
    (gid reason source : String) (session : Option String)
    (before after : Option GlyphToken) (vid : Option String)
    (vres : Option (List ValidatorResult)) : AuditLogState × AuditEvent :=
  let n := a.counter + 1
  let e : AuditEvent :=
    { event_id := "A-" ++ padZeros 6 n
      event_type := etype
      glyph_id := gid
      timestamp := now
      source := source
      session_id := session
      reason := reason
      before_state := before
      after_state := after
      validator_id := vid
      validation_results := vres }
  ({ counter := n, events := a.events ++ [e] }, e)

/-- Timeline entry dictionary built per event in
`reconstruct_glyph_history`. -/
structure TimelineEntry where
  event_id : String
  event_type_value : String
  timestamp : Int
  reason : String
  source : String
deriving DecidableEq

/-- The timeline entry for one event. -/
def timelineEntry (e : AuditEvent) : TimelineEntry :=
  { event_id := e.event_id
    event_type_value := e.event_type.value
    timestamp := e.timestamp
    reason := e.reason
    source := e.source }

/-- The history dictionary returned by `reconstruct_glyph_history`. -/
structure GlyphHistory where
  glyph_id : String
  total_events : Nat
  creation_event : Option TimelineEntry
  mutations : List TimelineEntry
  current_state : Option GlyphToken
  timeline : List TimelineEntry
deriving DecidableEq

/-- Stable insertion by timestamp (Python `sorted` with a key is stable:
an element is placed before strictly later elements only). -/
def insertByTs (e : AuditEvent) : List AuditEvent → List AuditEvent
  | [] => [e]
  | x :: xs =>
      if e.timestamp ≤ x.timestamp then e :: x :: xs
      else x :: insertByTs e xs

/-- Stable sort by timestamp, modelling `sorted(events, key=timestamp)`. -/
def sortByTs : List AuditEvent → List AuditEvent
  | [] => []
  | e :: es => insertByTs e (sortByTs es)

/-- One iteration of the reconstruction loop: extend the timeline, record
a creation or mutation entry, and track the last-seen `after_state`. -/
def historyStep (h : GlyphHistory) (e : AuditEvent) : GlyphHistory :=
  let te := timelineEntry e
  let h1 := { h with timeline := h.timeline ++ [te] }
  let h2 :=
    match e.event_type with
    | .created => { h1 with creation_event := some te }
    | .mutated => { h1 with mutations := h1.mutations ++ [te] }
    | _ => h1
  match e.after_state with
  | some s => { h2 with current_state := some s }
  | none => h2

/-- `AuditLog.reconstruct_glyph_history`: filter the log to one glyph id
(`query_by_glyph`), replay in timestamp order. -/
def reconstructGlyphHistory (log : List AuditEvent) (gid : String) :
    GlyphHistory :=
  let events := log.filter (fun e => e.glyph_id == gid)
  (sortByTs events).foldl historyStep
    { glyph_id := gid
      total_events := events.length
      creation_event := none
      mutations := []
      current_state := none
      timeline := [] }

/-! ## Store (`glyph_engine/store.py`)

Only the glyph operations reached by the modelled engine paths are
embedded: `durable` stands for the per-token JSON files under `glyphs/`
and `cache` for `_glyph_cache`. Python objects are shared by reference:
the token returned by `load_glyph` IS the cache entry, so an in-place
field assignment on it is visible through the cache (this aliasing is made
explicit where the engine mutates a loaded token). -/
structure StoreState where
  durable : List (String × GlyphToken)
  cache : List (String × GlyphToken)
deriving DecidableEq

/-- `GlyphStore.save_glyph`: write the durable file and update the
cache. -/
def saveGlyph (st : StoreState) (g : GlyphToken) : StoreState :=
  { durable := insertAssoc st.durable g.glyph_id g
    cache := insertAssoc st.cache g.glyph_id g }

/-- `GlyphStore.load_glyph`: cache first, else durable lookup populating
the cache; `none` when absent everywhere. -/
def loadGlyph (st : StoreState) (gid : String) :
    Option GlyphToken × StoreState :=
  match lookupKey st.cache gid with
  | some g => (some g, st)
  | none =>
      match lookupKey st.durable gid with
      | none => (none, st)
      | some g => (some g, { st with cache := insertAssoc st.cache gid g })

/-- `GlyphStore.delete_glyph`: false when the durable file is absent, else
unlink it and drop any cache entry. -/
def deleteGlyph (st : StoreState) (gid : String) : Bool × StoreState :=
  match lookupKey st.durable gid with
  | none => (false, st)
  | some _ =>
      (true,
       { durable := removeAssoc st.durable gid
         cache := removeAssoc st.cache gid })

/-- The value `get_all_glyphs` associates with one listed id: `load_glyph`
is cache-first (its cache-population side effect stores exactly this value
and is observationally irrelevant, so it is elided here). -/
def getGlyph (st : StoreState) (gid : String) : Option GlyphToken :=
  match lookupKey st.cache gid with
  | some g => some g
  | none => lookupKey st.durable gid

/-- `GlyphStore.get_all_glyphs`: every durable id paired with its
cache-first value. -/
def allGlyphs (st : StoreState) : List (String × GlyphToken) :=
  st.durable.filterMap (fun p => (getGlyph st p.1).map (fun g => (p.1, g)))

/-- `GlyphStore.get_active_glyphs`: the non-expired partition at query
time. -/
def activeGlyphs (st : StoreState) (now : Int) : List (String × GlyphToken) :=
  (allGlyphs st).filter (fun p => !(p.2.is_expired now))

/-- `GlyphStore.get_expired_glyphs`. -/
def expiredGlyphs (st : StoreState) (now : Int) :
    List (String × GlyphToken) :=
  (allGlyphs st).filter (fun p => p.2.is_expired now)

/-! ## Engine orchestrator (`glyph_engine/engine.py`) -/

/-- `EngineConfig` (vault path and fast-path flag are irrelevant to the
modelled claims and omitted). -/
structure EngineConfig where
  max_active_glyphs : Int
  default_ttl_seconds : Int
  require_auth : Bool
deriving DecidableEq

/-- `EngineResponse` (the nondeterministic `timestamp` default is
omitted). -/
structure EngineResponse where
  success : Bool
  message : String
  glyph_id : Option String
  validation_results : Option (List ValidatorResult)
  text_output : Option String
deriving DecidableEq

/-- Mutable state of a `GlyphEngine` instance. -/
structure EngineState where
  config : EngineConfig
  store : StoreState
  auditLog : AuditLogState
  validators : List (String × Validator)
  scrolls : List (String × Scroll)
  session_id : Option String
  glyph_counter : Nat
deriving DecidableEq

/-- `GlyphEngine._generate_glyph_id`: increment the counter and format
`G-...`. -/
def nextGlyphId (counter : Nat) : String :=
  "G-" ++ padZeros 3 (counter + 1)

/-- `GlyphEngine._get_scroll` with its default argument `"S-001"`,
falling back to `STANDARD_SCROLL` when the id is unknown. -/
def engineScroll (eng : EngineState) : Scroll :=
  (lookupKey eng.scrolls "S-001").getD STANDARD_SCROLL

/-- `GlyphEngine._check_accretion`: strictly below the ceiling. -/
def checkAccretion (eng : EngineState) (now : Int) : Bool :=
  decide (((activeGlyphs eng.store now).length : Int) <
    eng.config.max_active_glyphs)

/-- One iteration of `_run_decay_cycle`: delete the expired glyph and
audit the deletion as `expired` with source `system`. -/
def decayStep (now : Int) (acc : EngineState) (p : String × GlyphToken) :
    EngineState :=
  { acc with
    store := (deleteGlyph acc.store p.1).2
    auditLog := (createEvent acc.auditLog now AuditEventType.expired p.1
      ("TTL expired at " ++ toString p.2.expires_at) "system"
      acc.session_id (some p.2) none none none).1 }

/-- `GlyphEngine._run_decay_cycle`: sweep every expired glyph. -/
def runDecayCycle (eng : EngineState) (now : Int) : EngineState :=
  (expiredGlyphs eng.store now).foldl (decayStep now) eng

/-- Payload of a state-creating input, with the `payload.get` defaults of
`_handle_state` already resolved except for `ttl`, whose default comes
from the engine configuration. -/
structure StatePayload where
  cls : GlyphClass
  urgency : ℚ
  complexity : ℚ
  alignment : ℚ
  intensity : ℚ
  owner : String
  ttl : Option Int
  explanation : String
  parent_id : Option String
deriving DecidableEq

/-- A state-creating input message after parsing and the authentication
gate (`is_authenticated` resolved to a flag). -/
structure StateMsg where
  payload : StatePayload
  source : String
  authenticated : Bool
deriving DecidableEq

/-- The token `_handle_state` builds from the payload (construction runs
`model_post_init`, so expiry is `created + ttl`). -/
def buildStateGlyph (gid : String) (msg : StateMsg) (now : Int)
    (defaultTtl : Int) : GlyphToken :=
  mkGlyphToken gid msg.payload.cls
    { x := msg.payload.urgency, y := msg.payload.complexity,
      z := msg.payload.alignment }
    msg.payload.intensity msg.source msg.payload.owner
    (msg.payload.ttl.getD defaultTtl) now none
    msg.payload.explanation msg.payload.parent_id

/-- The validation context `_handle_state` passes to `V-01`. -/
def stateCtx (msg : StateMsg) (g : GlyphToken) : ValidationContext :=
  { glyph := some g
    mutation := none
    source := msg.source
    authenticated := msg.authenticated
    history := [] }

/-- The accretion-failure response of `_handle_state`. -/
def limitResponse : EngineResponse :=
  { success := false
    message := "Glyph limit reached. Run consolidation or wait for decay."
    glyph_id := none
    validation_results := none
    text_output := none }

/-- `GlyphEngine._handle_state`: decay sweep, accretion check, token
construction, validation, then persist + audit on success or a
`validation_failed` audit event on any failing result. -/
def handleState (eng : EngineState) (msg : StateMsg) (now : Int) :
    EngineResponse × EngineState :=
  let eng1 := runDecayCycle eng now
  if checkAccretion eng1 now = false then (limitResponse, eng1)
  else
    let gid := nextGlyphId eng1.glyph_counter
    let eng2 := { eng1 with glyph_counter := eng1.glyph_counter + 1 }
    let g := buildStateGlyph gid msg now eng2.config.default_ttl_seconds
    let results := validateTransition eng2.validators "V-01" (stateCtx msg g)
    match results.filter (fun r => !r.passed) with
    | f :: _ =>
        let a := (createEvent eng2.auditLog now
          AuditEventType.validation_failed gid f.message msg.source
          eng2.session_id none none none (some results)).1
        ({ success := false
           message := "Validation failed: " ++ f.message
           glyph_id := none
           validation_results := some results
           text_output := none },
         { eng2 with auditLog := a })
    | [] =>
        let st := saveGlyph eng2.store g
        let a := (createEvent eng2.auditLog now AuditEventType.created gid
          "State glyph created" msg.source eng2.session_id none (some g)
          none none).1
        ({ success := true
           message := "State recorded: " ++ gid
           glyph_id := some gid
           validation_results := none
           text_output := some g.to_text },
         { eng2 with store := st, auditLog := a })

/-- Payload of a `reframe` command: the optional field overrides read by
`_cmd_reframe`. -/
structure ReframePayload where
  cls : Option GlyphClass
  explanation : Option String
  intensity : Option ℚ
deriving DecidableEq

/-- A parsed `reframe` command message. -/
structure ReframeMsg where
  target : String
  payload : ReframePayload
  source : String
deriving DecidableEq

/-- The in-place field overrides of `_cmd_reframe`. -/
def applyOverrides (g : GlyphToken) (p : ReframePayload) : GlyphToken :=
  { g with
    glyph_class := p.cls.getD g.glyph_class
    explanation := p.explanation.getD g.explanation
    intensity := p.intensity.getD g.intensity }

/-- The not-found failure response shared by target-requiring commands. -/
def notFoundResponse (gid : String) : EngineResponse :=
  { success := false
    message := "Glyph not found: " ++ gid
    glyph_id := none
    validation_results := none
    text_output := none }

/-- The scroll-rejection response of `_cmd_reframe`. -/
def transformRejectedResponse : EngineResponse :=
  { success := false
    message := "Transform not allowed in current scroll"
    glyph_id := none
    validation_results := none
    text_output := none }

/-- `GlyphEngine._cmd_reframe`. The loaded token is the object held in the
read cache (`load_glyph` either served it from the cache or cached it),
so the in-place overrides are reflected in the cache entry BEFORE the
scroll check runs; on rejection the overridden token stays cached while
the durable file and the audit log are untouched. -/
def cmdReframe (eng : EngineState) (msg : ReframeMsg) (now : Int) :
    EngineResponse × EngineState :=
  match loadGlyph eng.store msg.target with
  | (none, st1) => (notFoundResponse msg.target, { eng with store := st1 })
  | (some g, st1) =>
      let g2 := applyOverrides g msg.payload
      let st2 := { st1 with cache := insertAssoc st1.cache msg.target g2 }
      if (engineScroll eng).is_mutation_allowed MutationType.transform
          = false then
        (transformRejectedResponse, { eng with store := st2 })
      else
        let st3 := saveGlyph st2 g2
        let a := (createEvent eng.auditLog now AuditEventType.mutated
          msg.target "Reframe command" msg.source eng.session_id (some g)
          (some g2) none none).1
        ({ success := true
           message := "Reframed: " ++ msg.target
           glyph_id := some msg.target
           validation_results := none
           text_output := some g2.to_text },
         { eng with store := st3, auditLog := a })

/-! ## Concrete instances used by the claim theorems and witnesses -/

/-- A concrete token: created at time 0 with TTL 10 seconds. -/
def c1Token : GlyphToken :=
  mkGlyphToken "G-001" GlyphClass.anchor ⟨0, 0, 0⟩ (1/2) "user" "paul" 10 0
    none "Test glyph." none

/-- A scroll with one explicit transition, for exercising the non-empty
transition-list branch of `can_transition`. -/
def c4ScrollEx : Scroll :=
  { scroll_id := "S-100"
    name := "Explicit Transition Scroll"
    sequence := []
    allowed_mutations := [.rotate, .attenuate]
    forbidden_mutations := [.amplify]
    transitions :=
      [{ from_glyph_id := "G-000"
         to_glyph_id := "G-001"
         mutation_type := .rotate
         requires_consent := false
         max_intensity_delta := 1 }]
    validator_id := "V-00"
    max_active_glyphs := 50 }

/-- A scroll listing `amplify` in both the allowed and the forbidden set,
for exercising the forbidden-overrides-allowed rule. -/
def c5OverlapScroll : Scroll :=
  { scroll_id := "S-101"
    name := "Overlap Scroll"
    sequence := []
    allowed_mutations := [.rotate, .amplify]
    forbidden_mutations := [.amplify]
    transitions := []
    validator_id := "V-00"
    max_active_glyphs := 50 }

/-- A registered test validator with one critical `ttl_required` check and
its checksum stored at registration time. -/
def c3Validator : Validator :=
  withChecksum
    { validator_id := "V-X"
      name := "Test Validator"
      checks :=
        [{ name := "ttl_required"
           description := "All glyphs must have TTL"
           is_critical := true }]
      on_fail := ValidationAction.halt
      version := "1.0.0"
      checksum := none }

/-- `c3Validator` with its check list mutated — the check's description
changed — but the stored checksum left untouched. -/
def c3Tampered : Validator :=
  { c3Validator with
    checks :=
      [{ name := "ttl_required"
         description := "Tampered description"
         is_critical := true }] }

/-- `c3Validator` with its check list mutated in the check's name, stored
checksum left untouched. -/
def c3RenameTampered : Validator :=
  { c3Validator with
    checks :=
      [{ name := "ttl_check"
         description := "All glyphs must have TTL"
         is_critical := true }] }

/-- A benign validation context: authenticated user input over `c1Token`
(positive TTL, no identity reference). -/
def c3Ctx : ValidationContext :=
  { glyph := some c1Token
    mutation := none
    source := "user"
    authenticated := true
    history := [] }

/-- A token with intensity 2, exercising the defensive non-critical
`max_intensity` check. -/
def c7Token : GlyphToken :=
  mkGlyphToken "G-007" GlyphClass.anchor ⟨0, 0, 0⟩ 2 "user" "paul" 10 0
    none "Session focus note." none

/-- An authenticated context over `c7Token`: under validator `V-01` every
check passes except the non-critical `max_intensity`. -/
def c7Ctx : ValidationContext :=
  { glyph := some c7Token
    mutation := none
    source := "user"
    authenticated := true
    history := [] }

/-- After-state snapshot recorded by the first mutation event. -/
def c8TokA : GlyphToken :=
  mkGlyphToken "G-010" GlyphClass.anchor ⟨0, 0, 1⟩ 1 "user" "paul" 100 0
    none "Focus note." none

/-- After-state snapshot recorded by the second (last) mutation event. -/
def c8TokB : GlyphToken :=
  { c8TokA with intensity := 0, explanation := "Focus note, reframed." }

/-- Creation event for glyph `G-010` at time 1. -/
def c8e1 : AuditEvent :=
  { event_id := "A-000001"
    event_type := AuditEventType.created
    glyph_id := "G-010"
    timestamp := 1
    source := "user"
    session_id := none
    reason := "State glyph created"
    before_state := none
    after_state := some c8TokA
    validator_id := none
    validation_results := none }

/-- First mutation event for `G-010` at time 2. -/
def c8e2 : AuditEvent :=
  { c8e1 with
    event_id := "A-000002"
    event_type := AuditEventType.mutated
    timestamp := 2
    reason := "Reframe command"
    before_state := some c8TokA
    after_state := some c8TokA }

/-- Second mutation event for `G-010` at time 3, carrying the last
after-state before deletion. -/
def c8e3 : AuditEvent :=
  { c8e2 with
    event_id := "A-000003"
    timestamp := 3
    after_state := some c8TokB }

/-- Forgotten event for `G-010` at time 4 (before-state only, as
`_cmd_forget` records it). -/
def c8e4 : AuditEvent :=
  { c8e1 with
    event_id := "A-000004"
    event_type := AuditEventType.forgotten
    timestamp := 4
    reason := "User requested forget"
    before_state := some c8TokB
    after_state := none }

/-- An unrelated event for a different glyph, present in the same log. -/
def c8eOther : AuditEvent :=
  { c8e1 with event_id := "A-000005", glyph_id := "G-011", timestamp := 2 }

/-- The audit log for the C8 scenario. -/
def c8Log : List AuditEvent := [c8e1, c8e2, c8eOther, c8e3, c8e4]

/-- The token stored under `G-020` in the C9 scenario. -/
def c9Glyph : GlyphToken :=
  mkGlyphToken "G-020" GlyphClass.anchor ⟨0, 0, 0⟩ 1 "user" "paul" 100 0
    none "Focus note." none

/-- A store holding `G-020` durably with a cold read cache. -/
def c9Store : StoreState :=
  { durable := [("G-020", c9Glyph)], cache := [] }

/-- The session scroll with the `transform` mutation kind forbidden, so a
`reframe` is rejected by the scroll check. -/
def c9RestrictedScroll : Scroll :=
  { STANDARD_SCROLL with forbidden_mutations := [.transform] }

/-- An engine whose active scroll `S-001` forbids `transform`. -/
def c9Engine : EngineState :=
  { config :=
      { max_active_glyphs := 100
        default_ttl_seconds := 86400
        require_auth := true }
    store := c9Store
    auditLog := { counter := 0, events := [] }
    validators := coreValidators
    scrolls := [("S-001", c9RestrictedScroll)]
    session_id := some "abcd1234"
    glyph_counter := 0 }

/-- A reframe command overriding the explanation of `G-020`. -/
def c9Msg : ReframeMsg :=
  { target := "G-020"
    payload :=
      { cls := none
        explanation := some "Focus note, reframed."
        intensity := none }
    source := "user" }

/-- A ceiling-1 engine configuration. -/
def c6Config : EngineConfig :=
  { max_active_glyphs := 1
    default_ttl_seconds := 86400
    require_auth := true }

/-- An active token (expires at time 10). -/
def c6ActiveGlyph : GlyphToken :=
  mkGlyphToken "G-050" GlyphClass.anchor ⟨0, 0, 1⟩ 1 "user" "paul" 10 0
    none "Held state." none

/-- An engine already holding one active token, at its ceiling of 1. -/
def c6FullEngine : EngineState :=
  { config := c6Config
    store := { durable := [("G-050", c6ActiveGlyph)], cache := [] }
    auditLog := { counter := 0, events := [] }
    validators := coreValidators
    scrolls := []
    session_id := none
    glyph_counter := 0 }

/-- An expired token (created at time -100 with TTL 10, expired long
before time 0). -/
def c6ExpiredGlyph : GlyphToken :=
  mkGlyphToken "G-051" GlyphClass.anchor ⟨0, 0, 1⟩ 1 "user" "paul" 10
    (-100) none "Old state." none

/-- The same ceiling-1 engine whose only stored token has expired, so the
decay sweep frees the slot. -/
def c6SweepEngine : EngineState :=
  { c6FullEngine with
    store := { durable := [("G-051", c6ExpiredGlyph)], cache := [] } }

/-- A benign state-creating request (passes every `V-01` check). -/
def c6Msg : StateMsg :=
  { payload :=
      { cls := GlyphClass.anchor
        urgency := 0
        complexity := 0
        alignment := 1
        intensity := 1
        owner := "paul"
        ttl := none
        explanation := "Session focus."
        parent_id := none }
    source := "user"
    authenticated := true }

/-- An empty-store engine with room below the ceiling. -/
def c10Engine : EngineState :=
  { c6FullEngine with store := { durable := [], cache := [] } }

/-- A request whose explanation contains an identity reference, failing
the critical `no_identity_fixation` check. -/
def c10MsgIdentity : StateMsg :=
  { c6Msg with
    payload := { c6Msg.payload with explanation := "identity anchor" } }

/-- A request whose intensity exceeds 1, failing only the NON-critical
`max_intensity` check (every critical check passes). -/
def c10MsgIntense : StateMsg :=
  { c6Msg with payload := { c6Msg.payload with intensity := 2 } }

/-! ## Claims -/

/-- C1 counterexample: the token created at time 0 with TTL 10, refreshed
at time 5 by 1 extra second, has `expires_at = 16` while
`created_at + ttl_seconds = 11`, so the claimed equation fails after
`refresh`. -/
theorem c1_counterexample :
    (c1Token.refresh 5 1).expires_at = 16 ∧
    (c1Token.refresh 5 1).created_at + (c1Token.refresh 5 1).ttl_seconds
      = 11 ∧
    (c1Token.refresh 5 1).expires_at ≠
      (c1Token.refresh 5 1).created_at + (c1Token.refresh 5 1).ttl_seconds
    := by
  refine ⟨rfl, rfl, ?_⟩
  decide

/-- C1 (amended): at construction with no explicit expiry,
`expires_at = created_at + ttl_seconds`; `refresh(extra)` adds `extra` to
`ttl_seconds` and recomputes the expiry from the clock at the time of the
refresh, so afterwards `expires_at = refresh_time + ttl_seconds` (not
`created_at + ttl_seconds`). -/
theorem c1_amended_expiry :
    (∀ (gid : String) (cls : GlyphClass) (vec : GlyphVector) (intensity : ℚ)
      (source owner : String) (ttl created : Int) (explanation : String)
      (parent : Option String),
      (mkGlyphToken gid cls vec intensity source owner ttl created none
        explanation parent).expires_at = created + ttl) ∧
    (∀ (g : GlyphToken) (now extra : Int),
      (g.refresh now extra).ttl_seconds = g.ttl_seconds + extra ∧
      (g.refresh now extra).expires_at = now + (g.ttl_seconds + extra)) := by
  exact ⟨fun _ _ _ _ _ _ _ _ _ _ => rfl, fun _ _ _ => ⟨rfl, rfl⟩⟩

/-- C2 counterexample: attenuating a token of intensity 1/2 by the factor
2 (which is ≥ 0) raises the intensity to 1, so `attenuate` is not
non-increasing for every factor ≥ 0. -/
theorem c2_counterexample :
    (0 : ℚ) ≤ 2 ∧
    (c1Token.attenuate 2).intensity = 1 ∧
    ¬ (c1Token.attenuate 2).intensity ≤ c1Token.intensity := by
  refine ⟨by norm_num, ?_, ?_⟩
  · show max 0 ((1/2 : ℚ) * 2) = 1
    norm_num
  · show ¬ max 0 ((1/2 : ℚ) * 2) ≤ 1/2
    norm_num

/-- C2 (amended): for a token with non-negative intensity (the model
bounds intensity in [0,1] at construction), `attenuate f` never leaves a
negative intensity for any factor, and is non-increasing exactly on
factors `0 ≤ f ≤ 1`; factors above 1 can increase intensity. -/
theorem c2_amended_attenuate (g : GlyphToken) (f : ℚ)
    (hi : 0 ≤ g.intensity) :
    0 ≤ (g.attenuate f).intensity ∧
    (0 ≤ f → f ≤ 1 → (g.attenuate f).intensity ≤ g.intensity) := by
  constructor
  · exact le_max_left 0 _
  · intro _ hf1
    refine max_le hi ?_
    calc g.intensity * f ≤ g.intensity * 1 :=
          mul_le_mul_of_nonneg_left hf1 hi
      _ = g.intensity := mul_one _

/-- C2 witness: the amended statement instantiated at the concrete token
of intensity 1/2 and factor 1/2. -/
theorem c2_amended_attenuate_witness :
    0 ≤ (c1Token.attenuate (1/2)).intensity ∧
    ((0:ℚ) ≤ 1/2 → (1/2:ℚ) ≤ 1 →
      (c1Token.attenuate (1/2)).intensity ≤ c1Token.intensity) :=
  c2_amended_attenuate c1Token (1/2) (by norm_num [c1Token, mkGlyphToken])

/-- C3 counterexample: mutating the registered validator's check list by
changing a check's description, without updating the stored checksum,
is NOT caught — the tampered validator still passes the integrity gate
and `validateTransition` returns the ordinary passing content-check
result instead of a single failing integrity result. -/
theorem c3_counterexample :
    c3Tampered.checks ≠ c3Validator.checks ∧
    c3Tampered.checksum = c3Validator.checksum ∧
    (validateTransition [("V-X", c3Tampered)] "V-X" c3Ctx).map
      ValidatorResult.passed = [true] := by
  refine ⟨by decide, rfl, by decide⟩

/-- C3 (amended): mutating a registered validator's check list without
updating its stored checksum causes every subsequent
`validate_transition` call to return the single failing
`validator_integrity` result with halt action, before any content check,
EXACTLY WHEN the mutation changes the recomputed checksum preimage (the
number of checks, a check's name, or its critical flag); description-only
mutations leave the checksum preimage unchanged and are not detected. The
detected direction, proved for every context: -/
theorem c3_amended_integrity (registry : List (String × Validator))
    (vid : String) (v : Validator) (ctx : ValidationContext)
    (stored : String) (hlook : lookupKey registry vid = some v)
    (hstored : v.checksum = some stored)
    (hmismatch : v.compute_checksum ≠ stored) :
    validateTransition registry vid ctx = [integrityFailureResult vid] := by
  simp only [validateTransition, hlook]
  simp [Validator.verify_integrity, hstored, hmismatch]

/-- C3 witness: the amended statement at the name-mutated validator — the
tampered registry yields exactly the single integrity failure. -/
theorem c3_amended_integrity_witness :
    validateTransition [("V-X", c3RenameTampered)] "V-X" c3Ctx =
      [integrityFailureResult "V-X"] :=
  c3_amended_integrity [("V-X", c3RenameTampered)] "V-X" c3RenameTampered
    c3Ctx c3Validator.compute_checksum (by decide) (by decide) (by decide)

/-- C4: `can_transition` returns false whenever the mutation kind is
disallowed; with a non-empty explicit transition list it returns true
exactly when an exact (from, to, kind) triple is present; with an empty
list it returns true. -/
theorem c4_can_transition (s : Scroll) (from_id to_id : String)
    (m : MutationType) :
    (s.is_mutation_allowed m = false →
      s.can_transition from_id to_id m = false) ∧
    (s.is_mutation_allowed m = true → s.transitions ≠ [] →
      (s.can_transition from_id to_id m = true ↔
        ∃ t ∈ s.transitions, t.from_glyph_id = from_id ∧
          t.to_glyph_id = to_id ∧ t.mutation_type = m)) ∧
    (s.is_mutation_allowed m = true → s.transitions = [] →
      s.can_transition from_id to_id m = true) := by
  unfold Scroll.can_transition
  refine ⟨fun h => by simp [h], fun h hne => ?_, fun h he => by simp [h, he]⟩
  rw [h]
  by_cases hx : ∃ t ∈ s.transitions, t.from_glyph_id = from_id ∧
      t.to_glyph_id = to_id ∧ t.mutation_type = m
  · simp [hx]
  · simp [hx, hne]

/-- C4 witness: instantiations at the genesis scroll (empty transition
list, open policy on an allowed kind) and at a scroll with one explicit
transition (exact match accepted). -/
theorem c4_can_transition_witness :
    GENESIS_SCROLL.can_transition "G-000" "G-001" MutationType.rotate
      = true ∧
    c4ScrollEx.can_transition "G-000" "G-001" MutationType.rotate = true :=
  ⟨(c4_can_transition GENESIS_SCROLL "G-000" "G-001"
      MutationType.rotate).2.2 (by decide) rfl,
   ((c4_can_transition c4ScrollEx "G-000" "G-001"
      MutationType.rotate).2.1 (by decide) (by decide)).2 (by decide)⟩

/-- C5: a mutation kind in the forbidden set is disallowed even when also
in the allowed set; a kind not forbidden is allowed exactly when it is in
the allowed set. -/
theorem c5_is_mutation_allowed (s : Scroll) (m : MutationType) :
    (m ∈ s.forbidden_mutations → s.is_mutation_allowed m = false) ∧
    (m ∉ s.forbidden_mutations →
      (s.is_mutation_allowed m = true ↔ m ∈ s.allowed_mutations)) := by
  unfold Scroll.is_mutation_allowed
  refine ⟨fun h => by simp [h], fun h => ?_⟩
  by_cases ha : m ∈ s.allowed_mutations
  · simp [h, ha]
  · simp [h, ha]

/-- C5 witness: in a scroll listing `amplify` as both allowed and
forbidden, `is_mutation_allowed amplify` is false (forbidden overrides);
in the genesis scroll, `rotate` (not forbidden) is allowed. -/
theorem c5_is_mutation_allowed_witness :
    c5OverlapScroll.is_mutation_allowed MutationType.amplify = false ∧
    GENESIS_SCROLL.is_mutation_allowed MutationType.rotate = true :=
  ⟨(c5_is_mutation_allowed c5OverlapScroll MutationType.amplify).1
      (by decide),
   ((c5_is_mutation_allowed GENESIS_SCROLL MutationType.rotate).2
      (by decide)).mpr (by decide)⟩

/-- The check loop returns exactly the prefix of per-check results ending
with the first critical failure (or all results when none occurs). -/
theorem runChecks_take (v : Validator) (ctx : ValidationContext)
    (cs : List ValidationCheck) :
    runChecks v ctx cs =
      (cs.map (fun c => run_check c ctx v)).take
        (cs.findIdx (critFailB v ctx) + 1) := by
  induction cs with
  | nil => rfl
  | cons c rest ih =>
      simp only [runChecks, List.map_cons, List.findIdx_cons]
      cases h : critFailB v ctx c with
      | true =>
          have hc : (run_check c ctx v).passed = false ∧
              c.is_critical = true := by
            simpa [critFailB, Bool.and_eq_true, Bool.not_eq_true'] using h
          simp [hc]
      | false =>
          have hc : ¬((run_check c ctx v).passed = false ∧
              c.is_critical = true) := by
            simpa [critFailB, Bool.and_eq_true, Bool.not_eq_true'] using h
          simp [hc, ih]

/-- C7: for a known validator passing its integrity gate,
`validate_transition` runs the declared checks in declaration order and
returns their results in that order, cut off exactly after the first
failing critical check — a failing non-critical check does not stop the
remaining checks. -/
theorem c7_check_order (registry : List (String × Validator)) (vid : String)
    (v : Validator) (ctx : ValidationContext)
    (hlook : lookupKey registry vid = some v)
    (hintegrity : v.verify_integrity = true) :
    validateTransition registry vid ctx =
      (v.checks.map (fun c => run_check c ctx v)).take
        (v.checks.findIdx (critFailB v ctx) + 1) := by
  simp only [validateTransition, hlook, hintegrity]
  simp [runChecks_take]

/-- C7 witness: validator `V-01` on an authenticated context whose token
has intensity 2 — the non-critical `max_intensity` check fails yet all
five results are returned in declaration order. -/
theorem c7_check_order_witness :
    validateTransition coreValidators "V-01" c7Ctx =
      (standardValidator.checks.map
        (fun c => run_check c c7Ctx standardValidator)).take
        (standardValidator.checks.findIdx
          (critFailB standardValidator c7Ctx) + 1) :=
  c7_check_order coreValidators "V-01" standardValidator c7Ctx (by decide)
    (by decide)

/-- C8: when the events recorded for one glyph id are a creation, two
mutations (each with an after-state snapshot, the forgotten event with
none, as `_cmd_forget` writes it), then a deletion, in timestamp order,
`reconstruct_glyph_history` reports that creation event as THE creation
event, exactly the two mutation events (in order), and a current-state
snapshot equal to the after-state of the last mutation before the
deletion. -/
theorem c8_archaeology (log : List AuditEvent) (gid : String)
    (e1 e2 e3 e4 : AuditEvent) (s1 s2 : GlyphToken)
    (hfilter : log.filter (fun e => e.glyph_id == gid) = [e1, e2, e3, e4])
    (ht1 : e1.event_type = AuditEventType.created)
    (ht2 : e2.event_type = AuditEventType.mutated)
    (ht3 : e3.event_type = AuditEventType.mutated)
    (ht4 : e4.event_type = AuditEventType.forgotten)
    (ha2 : e2.after_state = some s1)
    (ha3 : e3.after_state = some s2)
    (ha4 : e4.after_state = none)
    (h12 : e1.timestamp ≤ e2.timestamp)
    (h23 : e2.timestamp ≤ e3.timestamp)
    (h34 : e3.timestamp ≤ e4.timestamp) :
    (reconstructGlyphHistory log gid).creation_event
      = some (timelineEntry e1) ∧
    (reconstructGlyphHistory log gid).mutations
      = [timelineEntry e2, timelineEntry e3] ∧
    (reconstructGlyphHistory log gid).current_state = some s2 := by
  have hsort : sortByTs [e1, e2, e3, e4] = [e1, e2, e3, e4] := by
    simp [sortByTs, insertByTs, h12, h23, h34]
  cases h1 : e1.after_state with
  | none =>
      refine ⟨?_, ?_, ?_⟩ <;>
        simp [reconstructGlyphHistory, hfilter, hsort, historyStep,
          ht1, ht2, ht3, ht4, h1, ha2, ha3, ha4]
  | some s0 =>
      refine ⟨?_, ?_, ?_⟩ <;>
        simp [reconstructGlyphHistory, hfilter, hsort, historyStep,
          ht1, ht2, ht3, ht4, h1, ha2, ha3, ha4]

/-- C8 witness: the concrete five-event log (four events of `G-010` plus
one unrelated event) reconstructed for `G-010`. -/
theorem c8_archaeology_witness :
    (reconstructGlyphHistory c8Log "G-010").creation_event
      = some (timelineEntry c8e1) ∧
    (reconstructGlyphHistory c8Log "G-010").mutations
      = [timelineEntry c8e2, timelineEntry c8e3] ∧
    (reconstructGlyphHistory c8Log "G-010").current_state = some c8TokB :=
  c8_archaeology c8Log "G-010" c8e1 c8e2 c8e3 c8e4 c8TokA c8TokB
    (by decide) (by decide) (by decide) (by decide) (by decide) (by decide)
    (by decide) (by decide) (by decide) (by decide) (by decide)

/-- Lookup after update-or-append finds the new value. -/
theorem lookupKey_insertAssoc {α : Type} (l : List (String × α))
    (k : String) (v : α) : lookupKey (insertAssoc l k v) k = some v := by
  induction l with
  | nil => simp [insertAssoc, lookupKey]
  | cons p rest ih =>
      obtain ⟨k1, v1⟩ := p
      by_cases h : k1 = k
      · simp [insertAssoc, h, lookupKey]
      · simp [insertAssoc, h, lookupKey, ih]

/-- C9: when a `reframe` command is rejected because the active scroll
forbids the `transform` mutation kind, the payload's field overrides have
already been applied to the token object shared with the store's read
cache, so the failure response is returned while a subsequent load of the
target id yields the overridden token, and no audit event is appended for
the rejection. -/
theorem c9_reframe_cache_leak (eng : EngineState) (msg : ReframeMsg)
    (now : Int) (g : GlyphToken) (st1 : StoreState)
    (hload : loadGlyph eng.store msg.target = (some g, st1))
    (hscroll : (engineScroll eng).is_mutation_allowed MutationType.transform
      = false) :
    (cmdReframe eng msg now).1 = transformRejectedResponse ∧
    (loadGlyph (cmdReframe eng msg now).2.store msg.target).1
      = some (applyOverrides g msg.payload) ∧
    (cmdReframe eng msg now).2.auditLog = eng.auditLog := by
  simp only [cmdReframe, hload, hscroll]
  refine ⟨rfl, ?_, rfl⟩
  simp [loadGlyph, lookupKey_insertAssoc]

/-- C9 witness: the concrete engine whose `S-001` scroll forbids
`transform`, with `G-020` loaded from durable storage into the cache. -/
theorem c9_reframe_cache_leak_witness :
    (cmdReframe c9Engine c9Msg 50).1 = transformRejectedResponse ∧
    (loadGlyph (cmdReframe c9Engine c9Msg 50).2.store "G-020").1
      = some (applyOverrides c9Glyph c9Msg.payload) ∧
    (cmdReframe c9Engine c9Msg 50).2.auditLog = c9Engine.auditLog :=
  c9_reframe_cache_leak c9Engine c9Msg 50 c9Glyph
    { durable := [("G-020", c9Glyph)], cache := [("G-020", c9Glyph)] }
    (by decide) (by decide)

/-- C6: when the active (non-expired) token count after the decay sweep is
at or above the configured ceiling, a state-creating request returns a
failure and the engine state is exactly the post-sweep state — no token
persisted, no audit event appended for the new token; when the sweep has
freed a slot (count below the ceiling) and the built token passes
validation, the same request succeeds: the token is persisted and a
`created` audit event is appended for it. -/
theorem c6_accretion (eng : EngineState) (msg : StateMsg) (now : Int) :
    ((runDecayCycle eng now).config.max_active_glyphs ≤
        ((activeGlyphs (runDecayCycle eng now).store now).length : Int) →
      handleState eng msg now = (limitResponse, runDecayCycle eng now)) ∧
    (((activeGlyphs (runDecayCycle eng now).store now).length : Int) <
        (runDecayCycle eng now).config.max_active_glyphs →
      (∀ r ∈ validateTransition (runDecayCycle eng now).validators "V-01"
          (stateCtx msg (buildStateGlyph
            (nextGlyphId (runDecayCycle eng now).glyph_counter) msg now
            (runDecayCycle eng now).config.default_ttl_seconds)),
        r.passed = true) →
      (handleState eng msg now).1.success = true ∧
      (handleState eng msg now).1.glyph_id =
        some (nextGlyphId (runDecayCycle eng now).glyph_counter) ∧
      getGlyph (handleState eng msg now).2.store
          (nextGlyphId (runDecayCycle eng now).glyph_counter) =
        some (buildStateGlyph
          (nextGlyphId (runDecayCycle eng now).glyph_counter) msg now
          (runDecayCycle eng now).config.default_ttl_seconds) ∧
      ∃ e, (handleState eng msg now).2.auditLog.events =
          (runDecayCycle eng now).auditLog.events ++ [e] ∧
        e.event_type = AuditEventType.created ∧
        e.glyph_id = nextGlyphId (runDecayCycle eng now).glyph_counter) := by
  constructor
  · intro h
    have hca : checkAccretion (runDecayCycle eng now) now = false := by
      simp only [checkAccretion, decide_eq_false_iff_not, not_lt]
      exact h
    simp [handleState, hca]
  · intro h hall
    have hca : checkAccretion (runDecayCycle eng now) now = true := by
      simp only [checkAccretion, decide_eq_true_eq]
      exact h
    have hfil : (validateTransition (runDecayCycle eng now).validators "V-01"
        (stateCtx msg (buildStateGlyph
          (nextGlyphId (runDecayCycle eng now).glyph_counter) msg now
          (runDecayCycle eng now).config.default_ttl_seconds))).filter
        (fun r => !r.passed) = [] := by
      rw [List.filter_eq_nil_iff]
      intro r hr
      simp [hall r hr]
    simp only [handleState, hca]
    simp only [Bool.true_eq_false, if_false, hfil]
    refine ⟨trivial, trivial, ?_, ?_⟩
    · simp [getGlyph, saveGlyph, buildStateGlyph, mkGlyphToken,
        lookupKey_insertAssoc]
    · exact ⟨_, rfl, rfl, rfl⟩

/-- C6 witness: a ceiling-1 engine holding one active token rejects a
state request leaving the post-sweep state untouched; the same engine
holding one expired token instead (swept on entry) accepts the identical
request, persisting and auditing the new token. -/
theorem c6_accretion_witness :
    (handleState c6FullEngine c6Msg 0
      = (limitResponse, runDecayCycle c6FullEngine 0)) ∧
    ((handleState c6SweepEngine c6Msg 0).1.success = true ∧
     (handleState c6SweepEngine c6Msg 0).1.glyph_id =
       some (nextGlyphId (runDecayCycle c6SweepEngine 0).glyph_counter) ∧
     getGlyph (handleState c6SweepEngine c6Msg 0).2.store
         (nextGlyphId (runDecayCycle c6SweepEngine 0).glyph_counter) =
       some (buildStateGlyph
         (nextGlyphId (runDecayCycle c6SweepEngine 0).glyph_counter) c6Msg 0
         (runDecayCycle c6SweepEngine 0).config.default_ttl_seconds) ∧
     ∃ e, (handleState c6SweepEngine c6Msg 0).2.auditLog.events =
         (runDecayCycle c6SweepEngine 0).auditLog.events ++ [e] ∧
       e.event_type = AuditEventType.created ∧
       e.glyph_id = nextGlyphId (runDecayCycle c6SweepEngine 0).glyph_counter) :=
  ⟨(c6_accretion c6FullEngine c6Msg 0).1 (by decide),
   (c6_accretion c6SweepEngine c6Msg 0).2 (by decide) (by decide)⟩

/-- C10: for a state-creating request that clears the accretion gate, ANY
failing result in the computed validation list — the code filters on the
passed flag only, never on criticality — rejects the whole request: the
post-sweep store is unchanged (no token saved), a `validation_failed`
audit event carrying the full structured result list is appended, and the
failure response carries that same full list. -/
theorem c10_validation_rejection (eng : EngineState) (msg : StateMsg)
    (now : Int) (f : ValidatorResult) (fs : List ValidatorResult)
    (hacc : checkAccretion (runDecayCycle eng now) now = true)
    (hfail : (validateTransition (runDecayCycle eng now).validators "V-01"
        (stateCtx msg (buildStateGlyph
          (nextGlyphId (runDecayCycle eng now).glyph_counter) msg now
          (runDecayCycle eng now).config.default_ttl_seconds))).filter
        (fun r => !r.passed) = f :: fs) :
    (handleState eng msg now).1 =
      { success := false
        message := "Validation failed: " ++ f.message
        glyph_id := none
        validation_results :=
          some (validateTransition (runDecayCycle eng now).validators "V-01"
            (stateCtx msg (buildStateGlyph
              (nextGlyphId (runDecayCycle eng now).glyph_counter) msg now
              (runDecayCycle eng now).config.default_ttl_seconds)))
        text_output := none } ∧
    (handleState eng msg now).2.store = (runDecayCycle eng now).store ∧
    ∃ e, (handleState eng msg now).2.auditLog.events =
        (runDecayCycle eng now).auditLog.events ++ [e] ∧
      e.event_type = AuditEventType.validation_failed ∧
      e.reason = f.message ∧
      e.validation_results =
        some (validateTransition (runDecayCycle eng now).validators "V-01"
          (stateCtx msg (buildStateGlyph
            (nextGlyphId (runDecayCycle eng now).glyph_counter) msg now
            (runDecayCycle eng now).config.default_ttl_seconds))) := by
  simp only [handleState, hacc]
  simp only [Bool.true_eq_false, if_false, hfail]
  exact ⟨trivial, trivial, ⟨_, rfl, rfl, rfl, rfl⟩⟩

/-- C10 witness: two rejected requests against the empty-store engine —
one failing the critical identity-fixation check, one failing only the
NON-critical max-intensity check — each leaving the store unchanged and
appending one `validation_failed` event with the full result list. -/
theorem c10_validation_rejection_witness :
    ((handleState c10Engine c10MsgIdentity 0).2.store =
        (runDecayCycle c10Engine 0).store ∧
      ∃ e, (handleState c10Engine c10MsgIdentity 0).2.auditLog.events =
          (runDecayCycle c10Engine 0).auditLog.events ++ [e] ∧
        e.event_type = AuditEventType.validation_failed ∧
        e.reason = "Glyph explanation contains identity reference" ∧
        e.validation_results =
          some (validateTransition (runDecayCycle c10Engine 0).validators
            "V-01" (stateCtx c10MsgIdentity (buildStateGlyph
              (nextGlyphId (runDecayCycle c10Engine 0).glyph_counter)
              c10MsgIdentity 0
              (runDecayCycle c10Engine 0).config.default_ttl_seconds)))) ∧
    ((handleState c10Engine c10MsgIntense 0).1.success = false ∧
      (handleState c10Engine c10MsgIntense 0).2.store =
        (runDecayCycle c10Engine 0).store) := by
  constructor
  · have h := c10_validation_rejection c10Engine c10MsgIdentity 0
      (failResult standardValidator "no_identity_fixation"
        "Glyph explanation contains identity reference") []
      (by decide) (by decide)
    exact ⟨h.2.1, h.2.2⟩
  · have h := c10_validation_rejection c10Engine c10MsgIntense 0
      (failResult standardValidator "max_intensity"
        "Intensity exceeds maximum") []
      (by decide) (by decide)
    exact ⟨by rw [h.1], h.2.1⟩

end GlyphEngine
